import Mathlib

/-
Verification of the lower-bounding logic of
examples/stochastic_pid/stochastic_pid.py (class GurobiLBLowerBounder).

The Python module defines a custom lower bounder for a branch-and-bound
stochastic-programming solver.  Its behaviour relevant here is purely
sequential and is embedded shallowly below:

* module constant num_scenarios = 5;
* GurobiLBLowerBounder.__init__ (lines 29-38): asserts the solver name,
  stores iter = 0 and current_milp_gap = solver.options["MIPGap"];
* GurobiLBLowerBounder.solve_a_subproblem (lines 40-92): increments iter,
  possibly tightens the permitted MIP gap (lines 46-52), performs a local
  ipopt warm-start solve, a global gurobi solve, an optional ipopt
  fallback solve on time-out, and classifies the termination condition.

The gap value is a Python float (IEEE-754 binary64).  Every binary64
value that the gap schedule can produce from the initial option value
0.2 is an integer multiple of 2 ^ (-59), so floats are embedded exactly
as that integer multiple (an element of ℤ, the value scaled by 2 ^ 59).
Binary64 subtraction is exact rounding of the exact difference; at this
scale that is the integer rounding implemented by flScaled below.
-/

/-- Fuel-driven floor of the base-2 logarithm of a natural number.  The fuel
bound 128 covers every magnitude occurring in this development (all scaled
mantissas are below 2 ^ 64). -/
def log2fuel : ℕ → ℕ → ℕ
  | 0, _ => 0
  | f + 1, n => if n ≤ 1 then 0 else log2fuel f (n / 2) + 1

/-- Number of binary digits of a natural number (0 for 0). -/
def bitlen (n : ℕ) : ℕ := if n = 0 then 0 else log2fuel 128 n + 1

/-- Round a natural number to the nearest multiple of 2 ^ s, ties to the even
multiple (round-to-nearest-even on the quotient).  Only called with s ≥ 1. -/
def roundNatToMultiple (n : ℕ) (s : ℕ) : ℕ :=
  let q := n / 2 ^ s
  let r := n % 2 ^ s
  let half := 2 ^ (s - 1)
  if r < half then q * 2 ^ s
  else if half < r then (q + 1) * 2 ^ s
  else if q % 2 = 0 then q * 2 ^ s else (q + 1) * 2 ^ s

/-- IEEE-754 binary64 rounding (round-to-nearest-even) of an integer that
represents a real value scaled by 2 ^ 59.  A binary64 number has 53
significand bits, so a scaled value of at most 53 bits is exact; otherwise
it is rounded to the nearest multiple of its unit in the last place, which
at this scale is 2 ^ (bitlen - 53).  Overflow and subnormals are irrelevant
in the magnitude range used here (|value| < 1). -/
def flScaled (d : ℤ) : ℤ :=
  let n := d.natAbs
  if n < 2 ^ 53 then d
  else
    let m := roundNatToMultiple n (bitlen n - 53)
    if d < 0 then -(m : ℤ) else (m : ℤ)

/-- Binary64 subtraction on values scaled by 2 ^ 59: the exact difference,
correctly rounded.  This is the embedding of the Python float operation
x - y for the gap values handled by the schedule. -/
def floatSub (x y : ℤ) : ℤ := flScaled (x - y)

/-- The binary64 value of the Python literal 0.2, scaled by 2 ^ 59
(0.2 is stored as 3602879701896397 * 2 ^ (-54)). -/
def d02s : ℤ := 115292150460684704

/-- The binary64 value of the Python literals 0.01 and 1e-2, scaled by
2 ^ 59 (0.01 is stored as 5764607523034235 * 2 ^ (-59)). -/
def d001s : ℤ := 5764607523034235

/-- The gap value one binary64 rounding error below the floor:
5764607523034217 * 2 ^ (-59) = 0.009999999999999969..., produced by the
19th gap decrement (see C3). -/
def gBelowZ : ℤ := 5764607523034217

/-- Module-level constant num_scenarios = 5 (line 23 of the source). -/
def num_scenarios : ℕ := 5

/-- Pyomo termination conditions consumed by the example (pyomo.opt). -/
inductive TerminationCondition where
  | optimal
  | infeasible
  | maxTimeLimit
  | unbounded
  | maxIterations
  | other
deriving DecidableEq, Repr

/-- Pyomo solver status values consumed by the example (pyomo.opt). -/
inductive SolverStatus where
  | ok
  | warning
  | error
  | aborted
deriving DecidableEq, Repr

/-- String form of a termination condition, as interpolated by the Python
f-string in the RuntimeError of line 92. -/
def tcStr : TerminationCondition → String
  | TerminationCondition.optimal => "optimal"
  | TerminationCondition.infeasible => "infeasible"
  | TerminationCondition.maxTimeLimit => "maxTimeLimit"
  | TerminationCondition.unbounded => "unbounded"
  | TerminationCondition.maxIterations => "maxIterations"
  | TerminationCondition.other => "other"

/-- The part of a pyomo results object read as results.solver. -/
structure SolverInfo where
  termination_condition : TerminationCondition
  status : SolverStatus
deriving DecidableEq, Repr

/-- The part of a pyomo results object read as results.problem.  The
reported lower bound is an opaque numeric value; no arithmetic is performed
on it, so it is embedded as a rational. -/
structure ProblemResults where
  lower_bound : ℚ
deriving DecidableEq, Repr

/-- A pyomo results object as read by solve_a_subproblem. -/
structure SolverResults where
  solver : SolverInfo
  problem : ProblemResults
deriving DecidableEq, Repr

/-- The data solve_a_subproblem reads from the subproblem model:
pyo.value(subproblem_model.successor_obj), the objective value the parent
node stored on the model (set by the surrounding snoglode framework), and
pyo.value(get_active_objective(subproblem_model)), the value of the model's
single active objective after loading the solution. -/
structure SubproblemModel where
  successor_obj : ℚ
  active_objective : ℚ
deriving DecidableEq, Repr

/-- The solver options the example touches.  MIPGap holds a binary64 value
scaled by 2 ^ 59 (none embeds the Python option value None); NonConvex and
TimeLimit hold the plain integers assigned in __main__ and are never read
by the bounder. -/
structure SolverOptions where
  MIPGap : Option ℤ
  NonConvex : Option ℤ
  TimeLimit : Option ℤ
deriving DecidableEq, Repr

/-- A pyomo solver object as seen by the bounder: its name and its mutable
options dictionary. -/
structure PyomoSolver where
  name : String
  options : SolverOptions
deriving DecidableEq, Repr

/-- State of a GurobiLBLowerBounder instance.  The base class
AbstractLowerBounder (external snoglode dependency) stores the solver
passed to __init__ as self.opt (read at lines 52 and 59) and the time_ub
argument; __init__ itself adds iter and current_milp_gap
(gap scaled by 2 ^ 59, none embeds None). -/
structure GurobiLBLowerBounder where
  opt : PyomoSolver
  time_ub : ℤ
  iter : ℕ
  current_milp_gap : Option ℤ
deriving DecidableEq, Repr

/-- Python exceptions raised by the embedded code: the assert of line 34,
TypeErrors from arithmetic or ordering on None, and the RuntimeError of
line 92. -/
inductive PyError where
  | assertionError
  | typeError (msg : String)
  | runtimeError (msg : String)
deriving DecidableEq, Repr

/-- Solver invocations performed by one call to solve_a_subproblem, in
order: the ipopt warm-start solve with load_solutions=True (line 55), the
global gurobi solve (line 59), the ipopt fallback solve with
load_solutions=False (line 66), and loading of solutions into the model
(line 76). -/
inductive SolverEvent where
  | ipoptSolveLoad
  | gurobiSolve
  | ipoptSolveNoLoad
  | loadSolutions
deriving DecidableEq, Repr

instance {α β : Type} [DecidableEq α] [DecidableEq β] : DecidableEq (Except α β)
  | Except.error a, Except.error b =>
      if h : a = b then Decidable.isTrue (by rw [h]) else Decidable.isFalse (by simp [h])
  | Except.error _, Except.ok _ => Decidable.isFalse (by simp)
  | Except.ok _, Except.error _ => Decidable.isFalse (by simp)
  | Except.ok a, Except.ok b =>
      if h : a = b then Decidable.isTrue (by rw [h]) else Decidable.isFalse (by simp [h])

/-- Outcome of one call to solve_a_subproblem: the post-call bounder state
(mutations performed before an exception persist, as in Python), the
ordered solver invocations that occurred, and either the returned pair
(feasibility flag, optional bound) or the raised exception. -/
structure SolveOutcome where
  state : GurobiLBLowerBounder
  events : List SolverEvent
  result : Except PyError (Bool × Option ℚ)
deriving DecidableEq, Repr

/-- GurobiLBLowerBounder.__init__ (lines 29-38): assert the solver name is
gurobi or gurobipersistent, store iter = 0 and the MIPGap option as the
initial permitted gap.  When the option is None the constructor only
prints a notice and still succeeds. -/
def GurobiLBLowerBounder.init (solver : PyomoSolver) (time_ub : ℤ) :
    Except PyError GurobiLBLowerBounder :=
  if solver.name = "gurobi" ∨ solver.name = "gurobipersistent" then
    Except.ok { opt := solver, time_ub := time_ub, iter := 0,
                current_milp_gap := solver.options.MIPGap }
  else Except.error PyError.assertionError

/-- The gap-decrement condition of lines 46-48, evaluated after the
increment of line 45 with k = the incremented iter: iter is a multiple of
num_scenarios, the current gap is not equal to 1e-2 (in Python, None
compares unequal to 1e-2 without error), and iter exceeds
num_scenarios * 18. -/
def triggerCond (k : ℕ) (g : Option ℤ) : Prop :=
  k % num_scenarios = 0 ∧ g ≠ some d001s ∧ num_scenarios * 18 < k

instance (k : ℕ) (g : Option ℤ) : Decidable (triggerCond k g) :=
  inferInstanceAs (Decidable (k % num_scenarios = 0 ∧ g ≠ some d001s ∧ num_scenarios * 18 < k))

/-- One gap tightening (lines 49-51): subtract the binary64 value 0.01
(exact float subtraction), and if the result is negative reset to 1e-2. -/
def gapDecrement (g : ℤ) : ℤ :=
  let g2 := floatSub g d001s
  if g2 < 0 then d001s else g2

/-- Lines 45-52 of solve_a_subproblem: increment iter; if the trigger
condition holds, tighten the gap and write it into the stored solver's
options (line 52).  When the gap is None, the augmented assignment
current_milp_gap -= 0.01 raises a TypeError after iter was already
incremented.  Returns the post-schedule state and the raised exception,
if any. -/
def gapScheduleUpdate (self : GurobiLBLowerBounder) :
    GurobiLBLowerBounder × Option PyError :=
  let s1 : GurobiLBLowerBounder := { self with iter := self.iter + 1 }
  if triggerCond s1.iter s1.current_milp_gap then
    match s1.current_milp_gap with
    | none =>
        (s1, some (PyError.typeError "unsupported operand types for subtraction of NoneType and float"))
    | some g =>
        let g2 := gapDecrement g
        ({ s1 with current_milp_gap := some g2,
                   opt := { s1.opt with options := { s1.opt.options with MIPGap := some g2 } } },
         none)
  else (s1, none)

/-- The post-schedule bounder state of a call (first component of
gapScheduleUpdate); the state is never modified after line 52, so this is
the post-call state of solve_a_subproblem on every path. -/
def schedState (self : GurobiLBLowerBounder) : GurobiLBLowerBounder :=
  (gapScheduleUpdate self).1

/-- The message of the RuntimeError raised at line 92; the f-string
interpolates only the termination condition. -/
def lbErrorMessage (tc : TerminationCondition) : String :=
  "unexpected termination_condition for lower bounding problem: " ++ tcStr tc

/-- Lines 64-69: the results object used for classification is the ipopt
fallback result when the gurobi solve hit its time limit, the gurobi result
otherwise. -/
def effectiveResults (gurobi_results ipopt_results : SolverResults) : SolverResults :=
  if gurobi_results.solver.termination_condition = TerminationCondition.maxTimeLimit then
    ipopt_results
  else gurobi_results

/-- Lines 71-92: classify the (possibly fallback) results.  On optimal with
ok status the solution is loaded into the model; then comparing the gap
with 0 raises a TypeError when the gap is None (Python order comparison on
None), returns (True, max(successor objective, reported lower bound)) when
the gap is positive, and (True, value of the active objective) otherwise.
Infeasible returns (False, None); anything else raises the RuntimeError of
line 92. -/
def classifyResults (self : GurobiLBLowerBounder) (subproblem_model : SubproblemModel)
    (results : SolverResults) : List SolverEvent × Except PyError (Bool × Option ℚ) :=
  if results.solver.termination_condition = TerminationCondition.optimal ∧
      results.solver.status = SolverStatus.ok then
    match self.current_milp_gap with
    | none =>
        ([SolverEvent.loadSolutions],
         Except.error (PyError.typeError "order comparison of NoneType and int is not supported"))
    | some g =>
        if 0 < g then
          ([SolverEvent.loadSolutions],
           Except.ok (true, some (max subproblem_model.successor_obj results.problem.lower_bound)))
        else
          ([SolverEvent.loadSolutions],
           Except.ok (true, some subproblem_model.active_objective))
  else if results.solver.termination_condition = TerminationCondition.infeasible then
    ([], Except.ok (false, none))
  else
    ([], Except.error (PyError.runtimeError (lbErrorMessage results.solver.termination_condition)))

/-- Lines 54-92 after the gap schedule: the ipopt warm-start solve, the
global gurobi solve, the ipopt fallback solve when gurobi timed out, and
classification of the effective results. -/
def solveBody (s1 : GurobiLBLowerBounder) (subproblem_model : SubproblemModel)
    (gurobi_results ipopt_results : SolverResults) :
    List SolverEvent × Except PyError (Bool × Option ℚ) :=
  let preEvents :=
    if gurobi_results.solver.termination_condition = TerminationCondition.maxTimeLimit then
      [SolverEvent.ipoptSolveLoad, SolverEvent.gurobiSolve, SolverEvent.ipoptSolveNoLoad]
    else
      [SolverEvent.ipoptSolveLoad, SolverEvent.gurobiSolve]
  let classified := classifyResults s1 subproblem_model
    (effectiveResults gurobi_results ipopt_results)
  (preEvents ++ classified.1, classified.2)

/-- GurobiLBLowerBounder.solve_a_subproblem (lines 40-92).  The outcomes of
the external solver invocations are inputs: gurobi_results embeds the
gurobi solve of line 59 and ipopt_results the ipopt fallback solve of line
66.  The gap schedule of lines 45-52 runs first and its state mutation
persists on every path; if it raises (None gap on a trigger call) no solver
is invoked, otherwise the solve and classification of lines 54-92 run. -/
def GurobiLBLowerBounder.solve_a_subproblem (self : GurobiLBLowerBounder)
    (subproblem_model : SubproblemModel)
    (gurobi_results ipopt_results : SolverResults) : SolveOutcome :=
  { state := (gapScheduleUpdate self).1
    events :=
      match (gapScheduleUpdate self).2 with
      | some _ => []
      | none => (solveBody (gapScheduleUpdate self).1 subproblem_model
          gurobi_results ipopt_results).1
    result :=
      match (gapScheduleUpdate self).2 with
      | some e => Except.error e
      | none => (solveBody (gapScheduleUpdate self).1 subproblem_model
          gurobi_results ipopt_results).2 }

/-- The lower-bounding solver configured in __main__ (lines 231-234):
a gurobi solver with NonConvex = 2, MIPGap = 0.2 and TimeLimit = 15. -/
def nonconvex_gurobi_lb : PyomoSolver :=
  { name := "gurobi",
    options := { MIPGap := some d02s, NonConvex := some 2, TimeLimit := some 15 } }

/-- The bounder state produced by constructing GurobiLBLowerBounder on
nonconvex_gurobi_lb with the default time_ub = 600. -/
def initialBounder : GurobiLBLowerBounder :=
  { opt := nonconvex_gurobi_lb, time_ub := 600, iter := 0,
    current_milp_gap := some d02s }

/-- The external inputs of one solve_a_subproblem call: the subproblem
model and the two solver outcomes. -/
structure CallInputs where
  model : SubproblemModel
  gurobi : SolverResults
  ipopt : SolverResults

/-- State of the bounder after n successive calls to solve_a_subproblem
with per-call inputs inp, starting from s0. -/
def runCalls (s0 : GurobiLBLowerBounder) (inp : ℕ → CallInputs) :
    ℕ → GurobiLBLowerBounder
  | 0 => s0
  | n + 1 => ((runCalls s0 inp n).solve_a_subproblem (inp n).model
      (inp n).gurobi (inp n).ipopt).state

/-- A generic subproblem model used for concrete instantiations. -/
def cexModel : SubproblemModel := { successor_obj := 0, active_objective := 0 }

/-- A results object reporting an optimal solve with ok status. -/
def optimalOk : SolverResults :=
  { solver := { termination_condition := TerminationCondition.optimal,
                status := SolverStatus.ok },
    problem := { lower_bound := 0 } }

/-- A constant input sequence of optimal solves, used to drive concrete
call traces. -/
def constInputs : ℕ → CallInputs :=
  fun _ => { model := cexModel, gurobi := optimalOk, ipopt := optimalOk }

/-- Every gap value reachable by the schedule from the initial value 0.2:
the initial value, the 19 successive binary64 decrement results (the last
of which, gBelowZ, lies below the floor), and the floor 1e-2 reached by the
clamp of line 51.  Values are scaled by 2 ^ 59. -/
def gapValuesZ : List ℤ :=
  [115292150460684704, 109527542937650464, 103762935414616224, 97998327891581984,
   92233720368547744, 86469112845513504, 80704505322479264, 74939897799445024,
   69175290276410792, 63410682753376560, 57646075230342328, 51881467707308096,
   46116860184273864, 40352252661239632, 34587645138205396, 28823037615171160,
   23058430092136924, 17293822569102688, 11529215046068452, 5764607523034217,
   5764607523034235]

/-- Gap schedule iterated from the initial bounder; by solve_state this is
the state trace of any call sequence. -/
def iterSched : ℕ → GurobiLBLowerBounder
  | 0 => initialBounder
  | n + 1 => schedState (iterSched n)

theorem solve_state (s : GurobiLBLowerBounder) (m : SubproblemModel)
    (gres ires : SolverResults) :
    (s.solve_a_subproblem m gres ires).state = schedState s := rfl

theorem gapScheduleUpdate_no_trigger (s : GurobiLBLowerBounder)
    (h : ¬ triggerCond (s.iter + 1) s.current_milp_gap) :
    gapScheduleUpdate s = ({ s with iter := s.iter + 1 }, none) := by
  simp [gapScheduleUpdate, h]

theorem gapScheduleUpdate_trigger_some (s : GurobiLBLowerBounder) (g0 : ℤ)
    (hg : s.current_milp_gap = some g0)
    (h : triggerCond (s.iter + 1) (some g0)) :
    gapScheduleUpdate s =
      ({ s with iter := s.iter + 1, current_milp_gap := some (gapDecrement g0),
                opt := { s.opt with options :=
                  { s.opt.options with MIPGap := some (gapDecrement g0) } } }, none) := by
  simp [gapScheduleUpdate, hg, h]

theorem gapScheduleUpdate_trigger_none (s : GurobiLBLowerBounder)
    (hs : s.current_milp_gap = none)
    (h : triggerCond (s.iter + 1) none) :
    (gapScheduleUpdate s).1 = { s with iter := s.iter + 1 } ∧
      ∃ msg, (gapScheduleUpdate s).2 = some (PyError.typeError msg) := by
  refine ⟨?_, ?_⟩ <;> simp [gapScheduleUpdate, hs, h]

theorem gapScheduleUpdate_some_snd (s : GurobiLBLowerBounder) (g0 : ℤ)
    (hg : s.current_milp_gap = some g0) :
    (gapScheduleUpdate s).2 = none := by
  by_cases h : triggerCond (s.iter + 1) s.current_milp_gap
  · have h2 : triggerCond (s.iter + 1) (some g0) := by rw [hg] at h; exact h
    rw [gapScheduleUpdate_trigger_some s g0 hg h2]
  · rw [gapScheduleUpdate_no_trigger s h]

theorem schedState_gap (s : GurobiLBLowerBounder) (g0 : ℤ)
    (hg : s.current_milp_gap = some g0) :
    (schedState s).current_milp_gap =
      some (if triggerCond (s.iter + 1) (some g0) then gapDecrement g0 else g0) := by
  by_cases h : triggerCond (s.iter + 1) (some g0)
  · rw [schedState, gapScheduleUpdate_trigger_some s g0 hg h, if_pos h]
  · have h2 : ¬ triggerCond (s.iter + 1) s.current_milp_gap := by rw [hg]; exact h
    rw [schedState, gapScheduleUpdate_no_trigger s h2, if_neg h]
    exact hg

theorem schedState_iter (s : GurobiLBLowerBounder) :
    (schedState s).iter = s.iter + 1 := by
  rcases hg : s.current_milp_gap with _ | g0
  · by_cases h : triggerCond (s.iter + 1) s.current_milp_gap
    · have h2 : triggerCond (s.iter + 1) none := by rw [hg] at h; exact h
      rw [schedState, (gapScheduleUpdate_trigger_none s hg h2).1]
    · rw [schedState, gapScheduleUpdate_no_trigger s h]
  · by_cases h : triggerCond (s.iter + 1) (some g0)
    · rw [schedState, gapScheduleUpdate_trigger_some s g0 hg h]
    · have h2 : ¬ triggerCond (s.iter + 1) s.current_milp_gap := by rw [hg]; exact h
      rw [schedState, gapScheduleUpdate_no_trigger s h2]

theorem solve_result_of_some (s : GurobiLBLowerBounder) (m : SubproblemModel)
    (gres ires : SolverResults) (g0 : ℤ) (hg : s.current_milp_gap = some g0) :
    (s.solve_a_subproblem m gres ires).result =
      (solveBody (schedState s) m gres ires).2 := by
  simp [GurobiLBLowerBounder.solve_a_subproblem, gapScheduleUpdate_some_snd s g0 hg, schedState]

theorem solve_events_of_some (s : GurobiLBLowerBounder) (m : SubproblemModel)
    (gres ires : SolverResults) (g0 : ℤ) (hg : s.current_milp_gap = some g0) :
    (s.solve_a_subproblem m gres ires).events =
      (solveBody (schedState s) m gres ires).1 := by
  simp [GurobiLBLowerBounder.solve_a_subproblem, gapScheduleUpdate_some_snd s g0 hg, schedState]

theorem runCalls_eq_iterSched (inp : ℕ → CallInputs) :
    ∀ n, runCalls initialBounder inp n = iterSched n
  | 0 => rfl
  | n + 1 => by
      rw [runCalls, solve_state, runCalls_eq_iterSched inp n, iterSched]

theorem gapValues_props : ∀ g ∈ gapValuesZ,
    gBelowZ ≤ g ∧ g ≤ d02s ∧ (d001s ≤ g ∨ g = gBelowZ) ∧
      (g ≠ d001s → gapDecrement g ∈ gapValuesZ ∧
        (gapDecrement g ≤ g ∨ (g = gBelowZ ∧ gapDecrement g = d001s))) := by decide

theorem iterSched_iter : ∀ n, (iterSched n).iter = n
  | 0 => rfl
  | n + 1 => by rw [iterSched, schedState_iter, iterSched_iter n]

theorem iterSched_gap_mem : ∀ n, ∃ g, (iterSched n).current_milp_gap = some g ∧ g ∈ gapValuesZ
  | 0 => ⟨d02s, rfl, by decide⟩
  | n + 1 => by
      obtain ⟨g, hg, hmem⟩ := iterSched_gap_mem n
      rw [iterSched]
      rw [schedState_gap (iterSched n) g hg, iterSched_iter n]
      by_cases h : triggerCond (n + 1) (some g)
      · refine ⟨gapDecrement g, by rw [if_pos h], ?_⟩
        exact ((gapValues_props g hmem).2.2.2 (fun he => h.2.1 (by rw [he]))).1
      · exact ⟨g, by rw [if_neg h], hmem⟩

theorem effectiveResults_of_optimal (gres ires : SolverResults)
    (hopt : gres.solver.termination_condition = TerminationCondition.optimal) :
    effectiveResults gres ires = gres := by
  simp [effectiveResults, hopt]

theorem solveBody_snd (s1 : GurobiLBLowerBounder) (m : SubproblemModel)
    (gres ires : SolverResults) :
    (solveBody s1 m gres ires).2 =
      (classifyResults s1 m (effectiveResults gres ires)).2 := rfl

theorem solveBody_fst (s1 : GurobiLBLowerBounder) (m : SubproblemModel)
    (gres ires : SolverResults) :
    (solveBody s1 m gres ires).1 =
      (if gres.solver.termination_condition = TerminationCondition.maxTimeLimit then
        [SolverEvent.ipoptSolveLoad, SolverEvent.gurobiSolve, SolverEvent.ipoptSolveNoLoad]
      else
        [SolverEvent.ipoptSolveLoad, SolverEvent.gurobiSolve]) ++
      (classifyResults s1 m (effectiveResults gres ires)).1 := rfl

theorem classify_optimal_pos (st : GurobiLBLowerBounder) (m : SubproblemModel)
    (res : SolverResults) (g1 : ℤ) (hgap : st.current_milp_gap = some g1)
    (hopt : res.solver.termination_condition = TerminationCondition.optimal)
    (hok : res.solver.status = SolverStatus.ok) (hpos : 0 < g1) :
    classifyResults st m res =
      ([SolverEvent.loadSolutions],
       Except.ok (true, some (max m.successor_obj res.problem.lower_bound))) := by
  simp [classifyResults, hopt, hok, hgap, hpos]

theorem classify_optimal_nonpos (st : GurobiLBLowerBounder) (m : SubproblemModel)
    (res : SolverResults) (g1 : ℤ) (hgap : st.current_milp_gap = some g1)
    (hopt : res.solver.termination_condition = TerminationCondition.optimal)
    (hok : res.solver.status = SolverStatus.ok) (hnp : g1 ≤ 0) :
    classifyResults st m res =
      ([SolverEvent.loadSolutions], Except.ok (true, some m.active_objective)) := by
  simp [classifyResults, hopt, hok, hgap, not_lt.mpr hnp]

theorem classify_optimal_none (st : GurobiLBLowerBounder) (m : SubproblemModel)
    (res : SolverResults) (hgap : st.current_milp_gap = none)
    (hopt : res.solver.termination_condition = TerminationCondition.optimal)
    (hok : res.solver.status = SolverStatus.ok) :
    ∃ msg, classifyResults st m res =
      ([SolverEvent.loadSolutions], Except.error (PyError.typeError msg)) :=
  ⟨"order comparison of NoneType and int is not supported",
   by simp [classifyResults, hopt, hok, hgap]⟩

theorem classify_infeasible (st : GurobiLBLowerBounder) (m : SubproblemModel)
    (res : SolverResults)
    (hinf : res.solver.termination_condition = TerminationCondition.infeasible) :
    classifyResults st m res = ([], Except.ok (false, none)) := by
  simp [classifyResults, hinf]

theorem classify_other (st : GurobiLBLowerBounder) (m : SubproblemModel)
    (res : SolverResults)
    (h1 : ¬ (res.solver.termination_condition = TerminationCondition.optimal ∧
             res.solver.status = SolverStatus.ok))
    (h2 : res.solver.termination_condition ≠ TerminationCondition.infeasible) :
    classifyResults st m res =
      ([], Except.error (PyError.runtimeError
        (lbErrorMessage res.solver.termination_condition))) := by
  simp [classifyResults, h1, h2]

/-- The bounder state at the floor of the gap schedule: the permitted gap
equals the floor value 1e-2 (as a binary64, scaled by 2 ^ 59). -/
def floorState : GurobiLBLowerBounder :=
  { opt := { name := "gurobi",
             options := { MIPGap := some d001s, NonConvex := some 2, TimeLimit := some 15 } },
    time_ub := 600, iter := 0, current_milp_gap := some d001s }

/-- A subproblem model whose inherited successor objective is 5 and whose
own optimal objective value is 4. -/
def mC1 : SubproblemModel := { successor_obj := 5, active_objective := 4 }

/-- An optimal, ok results object whose reported lower bound is 3. -/
def rC1 : SolverResults :=
  { solver := { termination_condition := TerminationCondition.optimal,
                status := SolverStatus.ok },
    problem := { lower_bound := 3 } }

/-- Claim C1, counterexample.  With the permitted gap exactly at its floor
1e-2, an optimal solve still returns max(successor objective, reported
lower bound) = max(5, 3) = 5, not the subproblem's own objective value 4:
the code branches on current_milp_gap > 0, and the floor is positive, so
the claimed own-objective branch is not taken once the gap reaches the
floor. -/
theorem C1_counterexample :
    floorState.current_milp_gap = some d001s ∧
    (floorState.solve_a_subproblem mC1 rC1 rC1).result = Except.ok (true, some 5) ∧
    mC1.active_objective = 4 ∧ (5 : ℚ) ≠ 4 := by decide

/-- Claim C1, amended.  For a call whose global solve terminates optimal
with ok status, the branch is on positivity of the permitted gap, not on
its floor: whenever the (post-schedule) gap is positive — including when
it has reached the floor 1e-2 — the returned bound is the maximum of the
parent's stored successor objective and the solver's reported lower bound;
the subproblem's own objective value is returned only when the gap is
non-positive. -/
theorem C1_bound_branch (s : GurobiLBLowerBounder) (m : SubproblemModel)
    (gres ires : SolverResults) (g0 : ℤ)
    (hg : s.current_milp_gap = some g0)
    (hopt : gres.solver.termination_condition = TerminationCondition.optimal)
    (hok : gres.solver.status = SolverStatus.ok) :
    ∃ g1 : ℤ,
      (s.solve_a_subproblem m gres ires).state.current_milp_gap = some g1 ∧
      (0 < g1 → (s.solve_a_subproblem m gres ires).result =
        Except.ok (true, some (max m.successor_obj gres.problem.lower_bound))) ∧
      (g1 ≤ 0 → (s.solve_a_subproblem m gres ires).result =
        Except.ok (true, some m.active_objective)) := by
  have hgap := schedState_gap s g0 hg
  refine ⟨if triggerCond (s.iter + 1) (some g0) then gapDecrement g0 else g0,
    by rw [solve_state, hgap], ?_, ?_⟩
  · intro hpos
    rw [solve_result_of_some s m gres ires g0 hg, solveBody_snd,
      effectiveResults_of_optimal gres ires hopt,
      classify_optimal_pos (schedState s) m gres _ hgap hopt hok hpos]
  · intro hnp
    rw [solve_result_of_some s m gres ires g0 hg, solveBody_snd,
      effectiveResults_of_optimal gres ires hopt,
      classify_optimal_nonpos (schedState s) m gres _ hgap hopt hok hnp]

/-- Claim C1, witness: the amended theorem applied to the freshly
constructed bounder (gap 0.2) and an optimal solve. -/
theorem C1_bound_branch_witness :
    ∃ g1 : ℤ,
      (initialBounder.solve_a_subproblem mC1 rC1 rC1).state.current_milp_gap = some g1 ∧
      (0 < g1 → (initialBounder.solve_a_subproblem mC1 rC1 rC1).result =
        Except.ok (true, some (max mC1.successor_obj rC1.problem.lower_bound))) ∧
      (g1 ≤ 0 → (initialBounder.solve_a_subproblem mC1 rC1 rC1).result =
        Except.ok (true, some mC1.active_objective)) :=
  C1_bound_branch initialBounder mC1 rC1 rC1 d02s rfl rfl rfl

set_option maxRecDepth 8000 in
/-- Claim C2, counterexample.  Starting from the fresh bounder, after
exactly warmup_sweeps * num_scenarios + 1 = 18 * 5 + 1 = 91 calls the gap
is still its initial value 0.2: it has not decreased at all, in particular
not by one decrement step.  (The decrement condition iter % 5 == 0 and
iter > 90 first holds at iter = 95, not 91.) -/
theorem C2_counterexample :
    (runCalls initialBounder constInputs 91).current_milp_gap = some d02s ∧
    d02s ≠ floatSub d02s d001s ∧ d02s ≠ gapDecrement d02s := by
  refine ⟨by decide, by decide, by decide⟩

set_option maxRecDepth 8000 in
/-- Claim C2, amended.  For every input sequence, after 91 calls the gap is
unchanged at its initial value 0.2; the first tightening happens on call
(warmup_sweeps + 1) * num_scenarios = 95, after which the gap has decreased
by exactly one decrement step (the binary64 operation gap - 0.01). -/
theorem C2_first_decrement (inp : ℕ → CallInputs) :
    (runCalls initialBounder inp 91).current_milp_gap = some d02s ∧
    (runCalls initialBounder inp 95).current_milp_gap = some (floatSub d02s d001s) ∧
    floatSub d02s d001s = gapDecrement d02s ∧
    floatSub d02s d001s ≠ d02s := by
  refine ⟨?_, ?_, by decide, by decide⟩ <;> rw [runCalls_eq_iterSched] <;> decide

set_option maxRecDepth 8000 in
/-- Claim C3, counterexample.  The gap does take a value below the floor:
after 185 calls (the 19th decrement) it equals
5764607523034217 * 2 ^ (-59) = 0.00999999999999996..., which is strictly
below the binary64 floor value 1e-2 and below the exact rational 1/100;
five calls later the clamp of line 51 resets it to exactly 1e-2, so the
sequence is also not non-increasing at that step. -/
theorem C3_counterexample :
    (runCalls initialBounder constInputs 185).current_milp_gap = some gBelowZ ∧
    gBelowZ < d001s ∧
    (gBelowZ : ℚ) / 2 ^ 59 < 1 / 100 ∧
    (runCalls initialBounder constInputs 190).current_milp_gap = some d001s := by
  refine ⟨by decide, by decide, ?_, by decide⟩
  norm_num [gBelowZ]

/-- Claim C3, amended.  Across any sequence of calls from the fresh
bounder: the gap is mutated only on a call whose index is a multiple of
num_scenarios = 5, strictly beyond the warm-up threshold 5 * 18 = 90, and
whose gap differs from 1e-2 (the triggerCond); every mutation is the
binary64 decrement by 0.01 clamped up to 1e-2 when negative
(gapDecrement); the gap always stays between 0.2 and one binary64 rounding
error below the floor (it is either at least the floor 1e-2 or exactly the
below-floor value gBelowZ); and it is non-increasing except at the single
clamp step from gBelowZ back up to 1e-2. -/
theorem C3_gap_schedule (inp : ℕ → CallInputs) (n : ℕ) :
    ∃ g g2 : ℤ,
      (runCalls initialBounder inp n).current_milp_gap = some g ∧
      (runCalls initialBounder inp (n + 1)).current_milp_gap = some g2 ∧
      (¬ triggerCond (n + 1) (some g) → g2 = g) ∧
      (triggerCond (n + 1) (some g) → g2 = gapDecrement g) ∧
      gBelowZ ≤ g ∧ g ≤ d02s ∧ (d001s ≤ g ∨ g = gBelowZ) ∧
      (g2 ≤ g ∨ (g = gBelowZ ∧ g2 = d001s)) := by
  rw [runCalls_eq_iterSched inp n, runCalls_eq_iterSched inp (n + 1)]
  obtain ⟨g, hg, hmem⟩ := iterSched_gap_mem n
  have hprops := gapValues_props g hmem
  have hga := schedState_gap (iterSched n) g hg
  rw [iterSched_iter n] at hga
  by_cases h : triggerCond (n + 1) (some g)
  · have hne : g ≠ d001s := fun he => h.2.1 (by rw [he])
    have hdec := hprops.2.2.2 hne
    refine ⟨g, gapDecrement g, hg, ?_, fun hn => absurd h hn, fun _ => rfl,
      hprops.1, hprops.2.1, hprops.2.2.1, ?_⟩
    · rw [iterSched, hga, if_pos h]
    · rcases hdec.2 with hle | hgb
      · exact Or.inl hle
      · exact Or.inr hgb
  · exact ⟨g, g, hg, by rw [iterSched, hga, if_neg h], fun _ => rfl,
      fun ht => absurd ht h, hprops.1, hprops.2.1, hprops.2.2.1, Or.inl le_rfl⟩

/-- Claim C3, witness: the amended theorem instantiated at call 185 of the
constant optimal input sequence (the call that performs the below-floor
decrement). -/
theorem C3_gap_schedule_witness :
    ∃ g g2 : ℤ,
      (runCalls initialBounder constInputs 184).current_milp_gap = some g ∧
      (runCalls initialBounder constInputs 185).current_milp_gap = some g2 ∧
      (¬ triggerCond 185 (some g) → g2 = g) ∧
      (triggerCond 185 (some g) → g2 = gapDecrement g) ∧
      gBelowZ ≤ g ∧ g ≤ d02s ∧ (d001s ≤ g ∨ g = gBelowZ) ∧
      (g2 ≤ g ∨ (g = gBelowZ ∧ g2 = d001s)) :=
  C3_gap_schedule constInputs 184

/-- A results object reporting that the solver hit its time limit. -/
def timeoutRes : SolverResults :=
  { solver := { termination_condition := TerminationCondition.maxTimeLimit,
                status := SolverStatus.ok },
    problem := { lower_bound := 0 } }

/-- A results object with an unexpected termination condition. -/
def rUnb : SolverResults :=
  { solver := { termination_condition := TerminationCondition.unbounded,
                status := SolverStatus.ok },
    problem := { lower_bound := 0 } }

/-- The bounder state after 94 calls (the next call is number 95, the first
gap-decrement call). -/
def stateAt94 : GurobiLBLowerBounder := { initialBounder with iter := 94 }

/-- A second bounder state and model, distinct from initialBounder and
cexModel, standing for a different node and a different scenario. -/
def otherBounder : GurobiLBLowerBounder := { initialBounder with iter := 7 }

/-- A model distinct from cexModel, standing for a different scenario. -/
def mC8 : SubproblemModel := { successor_obj := 2, active_objective := 2 }

/-- A gurobi-named solver whose MIPGap option is unspecified (None). -/
def gurobi_no_gap : PyomoSolver :=
  { name := "gurobi",
    options := { MIPGap := none, NonConvex := some 2, TimeLimit := none } }

/-- An ipopt-named solver, which the constructor must reject. -/
def ipopt_solver : PyomoSolver :=
  { name := "ipopt",
    options := { MIPGap := none, NonConvex := none, TimeLimit := none } }

/-- A bounder state with a None gap at iteration 94 (the next call
triggers the gap-decrement branch). -/
def sNone94 : GurobiLBLowerBounder :=
  { opt := gurobi_no_gap, time_ub := 600, iter := 94, current_milp_gap := none }

/-- Claim C4: the termination status of the (possibly fallback) solve is
classified exactly as: optimal with ok solver status returns (True, bound
value); infeasible returns (False, None); any other termination condition
raises a fatal error rather than returning a result.  Stated for a bounder
whose gap is specified (not None; the None case is claim C10). -/
theorem C4_classification (s : GurobiLBLowerBounder) (m : SubproblemModel)
    (gres ires : SolverResults) (g0 : ℤ)
    (hg : s.current_milp_gap = some g0) :
    ((effectiveResults gres ires).solver.termination_condition = TerminationCondition.optimal ∧
       (effectiveResults gres ires).solver.status = SolverStatus.ok →
       ∃ b : ℚ, (s.solve_a_subproblem m gres ires).result = Except.ok (true, some b)) ∧
    ((effectiveResults gres ires).solver.termination_condition = TerminationCondition.infeasible →
       (s.solve_a_subproblem m gres ires).result = Except.ok (false, none)) ∧
    ((effectiveResults gres ires).solver.termination_condition ≠ TerminationCondition.optimal ∧
       (effectiveResults gres ires).solver.termination_condition ≠ TerminationCondition.infeasible →
       (s.solve_a_subproblem m gres ires).result =
         Except.error (PyError.runtimeError
           (lbErrorMessage (effectiveResults gres ires).solver.termination_condition))) := by
  have hgap := schedState_gap s g0 hg
  refine ⟨?_, ?_, ?_⟩
  · rintro ⟨hopt, hok⟩
    rw [solve_result_of_some s m gres ires g0 hg, solveBody_snd]
    by_cases hpos : 0 < (if triggerCond (s.iter + 1) (some g0) then gapDecrement g0 else g0)
    · exact ⟨_, by
        rw [classify_optimal_pos (schedState s) m (effectiveResults gres ires) _ hgap hopt hok hpos]⟩
    · exact ⟨_, by
        rw [classify_optimal_nonpos (schedState s) m (effectiveResults gres ires) _ hgap hopt hok
          (not_lt.mp hpos)]⟩
  · intro hinf
    rw [solve_result_of_some s m gres ires g0 hg, solveBody_snd,
      classify_infeasible (schedState s) m (effectiveResults gres ires) hinf]
  · rintro ⟨h1, h2⟩
    rw [solve_result_of_some s m gres ires g0 hg, solveBody_snd,
      classify_other (schedState s) m (effectiveResults gres ires) (fun hc => h1 hc.1) h2]

/-- Claim C4, witness: the classification applied to the fresh bounder and
an optimal solve. -/
theorem C4_classification_witness :
    ((effectiveResults optimalOk optimalOk).solver.termination_condition = TerminationCondition.optimal ∧
       (effectiveResults optimalOk optimalOk).solver.status = SolverStatus.ok →
       ∃ b : ℚ, (initialBounder.solve_a_subproblem cexModel optimalOk optimalOk).result =
         Except.ok (true, some b)) ∧
    ((effectiveResults optimalOk optimalOk).solver.termination_condition = TerminationCondition.infeasible →
       (initialBounder.solve_a_subproblem cexModel optimalOk optimalOk).result =
         Except.ok (false, none)) ∧
    ((effectiveResults optimalOk optimalOk).solver.termination_condition ≠ TerminationCondition.optimal ∧
       (effectiveResults optimalOk optimalOk).solver.termination_condition ≠ TerminationCondition.infeasible →
       (initialBounder.solve_a_subproblem cexModel optimalOk optimalOk).result =
         Except.error (PyError.runtimeError
           (lbErrorMessage (effectiveResults optimalOk optimalOk).solver.termination_condition))) :=
  C4_classification initialBounder cexModel optimalOk optimalOk d02s rfl

/-- Claim C5: when the global solve terminates with maxTimeLimit, the
bounder falls back to the local ipopt solver (a further ipopt invocation
occurs) and the returned feasibility and bound are classified from the
local solver's results object instead of the timed-out global one. -/
theorem C5_timeout_fallback (s : GurobiLBLowerBounder) (m : SubproblemModel)
    (gres ires : SolverResults) (g0 : ℤ)
    (hg : s.current_milp_gap = some g0)
    (ht : gres.solver.termination_condition = TerminationCondition.maxTimeLimit) :
    effectiveResults gres ires = ires ∧
    (s.solve_a_subproblem m gres ires).result = (classifyResults (schedState s) m ires).2 ∧
    (s.solve_a_subproblem m gres ires).events =
      SolverEvent.ipoptSolveLoad :: SolverEvent.gurobiSolve :: SolverEvent.ipoptSolveNoLoad ::
        (classifyResults (schedState s) m ires).1 := by
  have heff : effectiveResults gres ires = ires := by simp [effectiveResults, ht]
  refine ⟨heff, ?_, ?_⟩
  · rw [solve_result_of_some s m gres ires g0 hg, solveBody_snd, heff]
  · rw [solve_events_of_some s m gres ires g0 hg, solveBody_fst, heff, if_pos ht]
    rfl

/-- Claim C5, witness: the fallback applied to the fresh bounder, a
timed-out global solve and an optimal local solve. -/
theorem C5_timeout_fallback_witness :
    effectiveResults timeoutRes optimalOk = optimalOk ∧
    (initialBounder.solve_a_subproblem cexModel timeoutRes optimalOk).result =
      (classifyResults (schedState initialBounder) cexModel optimalOk).2 ∧
    (initialBounder.solve_a_subproblem cexModel timeoutRes optimalOk).events =
      SolverEvent.ipoptSolveLoad :: SolverEvent.gurobiSolve :: SolverEvent.ipoptSolveNoLoad ::
        (classifyResults (schedState initialBounder) cexModel optimalOk).1 :=
  C5_timeout_fallback initialBounder cexModel timeoutRes optimalOk d02s rfl rfl

/-- Claim C6: whenever the gap schedule does not raise (the gap is
specified, as in the example program), every call first performs the ipopt
solve with load_solutions=True (the warm start) and only then the global
gurobi solve, before any other solver interaction. -/
theorem C6_warm_start_order (s : GurobiLBLowerBounder) (m : SubproblemModel)
    (gres ires : SolverResults) (g0 : ℤ)
    (hg : s.current_milp_gap = some g0) :
    ∃ rest, (s.solve_a_subproblem m gres ires).events =
      SolverEvent.ipoptSolveLoad :: SolverEvent.gurobiSolve :: rest := by
  rw [solve_events_of_some s m gres ires g0 hg, solveBody_fst]
  by_cases ht : gres.solver.termination_condition = TerminationCondition.maxTimeLimit
  · rw [if_pos ht]; exact ⟨_, rfl⟩
  · rw [if_neg ht]; exact ⟨_, rfl⟩

/-- Claim C6, witness: the warm-start order on the fresh bounder with an
optimal global solve. -/
theorem C6_warm_start_order_witness :
    ∃ rest, (initialBounder.solve_a_subproblem cexModel optimalOk optimalOk).events =
      SolverEvent.ipoptSolveLoad :: SolverEvent.gurobiSolve :: rest :=
  C6_warm_start_order initialBounder cexModel optimalOk optimalOk d02s rfl

/-- Claim C7, counterexample.  On the decrement call (iteration 95 from
stateAt94) solve_a_subproblem mutates the long-lived solver object stored
on the bounder: its options MIPGap changes from 0.2 to the decremented
gap, contradicting the claim that nothing outside iter and
current_milp_gap is mutated. -/
theorem C7_counterexample :
    (stateAt94.solve_a_subproblem cexModel optimalOk optimalOk).state.opt.options.MIPGap
        = some (floatSub d02s d001s) ∧
    stateAt94.opt.options.MIPGap = some d02s ∧
    some (floatSub d02s d001s) ≠ some d02s := by decide

/-- Claim C7, amended.  solve_a_subproblem mutates exactly the gap-schedule
state: iter always increments; on a non-trigger call the stored solver
object and the gap are untouched; on a trigger call with a specified gap
both the gap and the stored solver's MIPGap option are set to the
decremented gap.  The solver's name and its other options (NonConvex,
TimeLimit) and time_ub are never modified. -/
theorem C7_frame (s : GurobiLBLowerBounder) (m : SubproblemModel)
    (gres ires : SolverResults) :
    (s.solve_a_subproblem m gres ires).state.iter = s.iter + 1 ∧
    (s.solve_a_subproblem m gres ires).state.time_ub = s.time_ub ∧
    (s.solve_a_subproblem m gres ires).state.opt.name = s.opt.name ∧
    (s.solve_a_subproblem m gres ires).state.opt.options.NonConvex = s.opt.options.NonConvex ∧
    (s.solve_a_subproblem m gres ires).state.opt.options.TimeLimit = s.opt.options.TimeLimit ∧
    (¬ triggerCond (s.iter + 1) s.current_milp_gap →
      (s.solve_a_subproblem m gres ires).state.opt = s.opt ∧
      (s.solve_a_subproblem m gres ires).state.current_milp_gap = s.current_milp_gap) ∧
    (∀ g0 : ℤ, s.current_milp_gap = some g0 → triggerCond (s.iter + 1) (some g0) →
      (s.solve_a_subproblem m gres ires).state.current_milp_gap = some (gapDecrement g0) ∧
      (s.solve_a_subproblem m gres ires).state.opt.options.MIPGap = some (gapDecrement g0)) := by
  simp only [solve_state]
  rcases hgo : s.current_milp_gap with _ | g0
  · have hstate : schedState s = { s with iter := s.iter + 1 } := by
      by_cases htr : triggerCond (s.iter + 1) s.current_milp_gap
      · rw [schedState]
        exact (gapScheduleUpdate_trigger_none s hgo (by rw [hgo] at htr; exact htr)).1
      · rw [schedState, gapScheduleUpdate_no_trigger s htr]
    rw [hstate]
    refine ⟨rfl, rfl, rfl, rfl, rfl, fun _ => ⟨rfl, hgo⟩, ?_⟩
    intro g1 he
    exact absurd he (by simp)
  · by_cases htr : triggerCond (s.iter + 1) (some g0)
    · have hstate : schedState s =
          { s with iter := s.iter + 1, current_milp_gap := some (gapDecrement g0),
                   opt := { s.opt with options :=
                     { s.opt.options with MIPGap := some (gapDecrement g0) } } } := by
        rw [schedState, gapScheduleUpdate_trigger_some s g0 hgo htr]
      rw [hstate]
      refine ⟨rfl, rfl, rfl, rfl, rfl, ?_, ?_⟩
      · intro hn
        exact absurd htr hn
      · intro g1 he _
        injection he with he1
        rw [← he1]
        exact ⟨rfl, rfl⟩
    · have hstate : schedState s = { s with iter := s.iter + 1 } := by
        rw [schedState, gapScheduleUpdate_no_trigger s (by rw [hgo]; exact htr)]
      rw [hstate]
      refine ⟨rfl, rfl, rfl, rfl, rfl, fun _ => ⟨rfl, hgo⟩, ?_⟩
      intro g1 he htr1
      injection he with he1
      rw [← he1] at htr1
      exact absurd htr1 htr

/-- Claim C7, witness: the frame characterization applied to the state
before the first decrement call. -/
theorem C7_frame_witness :
    (stateAt94.solve_a_subproblem cexModel optimalOk optimalOk).state.iter = stateAt94.iter + 1 ∧
    (stateAt94.solve_a_subproblem cexModel optimalOk optimalOk).state.time_ub = stateAt94.time_ub ∧
    (stateAt94.solve_a_subproblem cexModel optimalOk optimalOk).state.opt.name = stateAt94.opt.name ∧
    (stateAt94.solve_a_subproblem cexModel optimalOk optimalOk).state.opt.options.NonConvex =
      stateAt94.opt.options.NonConvex ∧
    (stateAt94.solve_a_subproblem cexModel optimalOk optimalOk).state.opt.options.TimeLimit =
      stateAt94.opt.options.TimeLimit ∧
    (¬ triggerCond (stateAt94.iter + 1) stateAt94.current_milp_gap →
      (stateAt94.solve_a_subproblem cexModel optimalOk optimalOk).state.opt = stateAt94.opt ∧
      (stateAt94.solve_a_subproblem cexModel optimalOk optimalOk).state.current_milp_gap =
        stateAt94.current_milp_gap) ∧
    (∀ g0 : ℤ, stateAt94.current_milp_gap = some g0 →
      triggerCond (stateAt94.iter + 1) (some g0) →
      (stateAt94.solve_a_subproblem cexModel optimalOk optimalOk).state.current_milp_gap =
        some (gapDecrement g0) ∧
      (stateAt94.solve_a_subproblem cexModel optimalOk optimalOk).state.opt.options.MIPGap =
        some (gapDecrement g0)) :=
  C7_frame stateAt94 cexModel optimalOk optimalOk

/-- Claim C8, counterexample.  Two calls at a different bounder state and a
different subproblem model (standing for a different node and scenario),
both with the unexpected termination condition unbounded, raise exactly the
same error: the RuntimeError message interpolates only the termination
condition, so it cannot identify the scenario or the node at fault. -/
theorem C8_counterexample :
    (initialBounder.solve_a_subproblem cexModel rUnb rUnb).result =
      (otherBounder.solve_a_subproblem mC8 rUnb rUnb).result ∧
    cexModel ≠ mC8 ∧ initialBounder ≠ otherBounder ∧
    (initialBounder.solve_a_subproblem cexModel rUnb rUnb).result =
      Except.error (PyError.runtimeError (lbErrorMessage TerminationCondition.unbounded)) := by
  decide

/-- Claim C8, amended.  The fatal error for an unexpected termination
condition is the RuntimeError whose message is determined by the
termination condition alone (lbErrorMessage); it carries no scenario or
node identification (the statement is uniform in the bounder state s and
the model m). -/
theorem C8_error_only_condition (s : GurobiLBLowerBounder) (m : SubproblemModel)
    (gres ires : SolverResults) (g0 : ℤ)
    (hg : s.current_milp_gap = some g0)
    (h1 : ¬ ((effectiveResults gres ires).solver.termination_condition = TerminationCondition.optimal ∧
             (effectiveResults gres ires).solver.status = SolverStatus.ok))
    (h2 : (effectiveResults gres ires).solver.termination_condition ≠ TerminationCondition.infeasible) :
    (s.solve_a_subproblem m gres ires).result =
      Except.error (PyError.runtimeError
        (lbErrorMessage (effectiveResults gres ires).solver.termination_condition)) := by
  rw [solve_result_of_some s m gres ires g0 hg, solveBody_snd,
    classify_other (schedState s) m (effectiveResults gres ires) h1 h2]

/-- Claim C8, witness: the amended theorem applied to an unbounded
termination at the fresh bounder. -/
theorem C8_error_only_condition_witness :
    (initialBounder.solve_a_subproblem cexModel rUnb rUnb).result =
      Except.error (PyError.runtimeError
        (lbErrorMessage (effectiveResults rUnb rUnb).solver.termination_condition)) :=
  C8_error_only_condition initialBounder cexModel rUnb rUnb d02s rfl (by decide) (by decide)

/-- Claim C9: constructing a GurobiLBLowerBounder succeeds exactly when the
supplied solver is named gurobi or gurobipersistent, yielding the state
with iter = 0 and the MIPGap option as the initial gap; any other name
fails the assert of line 34. -/
theorem C9_constructor_assert (solver : PyomoSolver) (t : ℤ) :
    ((solver.name = "gurobi" ∨ solver.name = "gurobipersistent") →
      GurobiLBLowerBounder.init solver t =
        Except.ok { opt := solver, time_ub := t, iter := 0,
                    current_milp_gap := solver.options.MIPGap }) ∧
    (¬ (solver.name = "gurobi" ∨ solver.name = "gurobipersistent") →
      GurobiLBLowerBounder.init solver t = Except.error PyError.assertionError) := by
  constructor
  · intro h
    rw [GurobiLBLowerBounder.init, if_pos h]
  · intro h
    rw [GurobiLBLowerBounder.init, if_neg h]

/-- Claim C9, witness: construction succeeds on the gurobi-named lb solver
of the example and fails with the assertion error on an ipopt-named
solver. -/
theorem C9_constructor_assert_witness :
    GurobiLBLowerBounder.init nonconvex_gurobi_lb 600 =
      Except.ok { opt := nonconvex_gurobi_lb, time_ub := 600, iter := 0,
                  current_milp_gap := nonconvex_gurobi_lb.options.MIPGap } ∧
    GurobiLBLowerBounder.init ipopt_solver 600 = Except.error PyError.assertionError :=
  ⟨(C9_constructor_assert nonconvex_gurobi_lb 600).1 (Or.inl rfl),
   (C9_constructor_assert ipopt_solver 600).2 (by decide)⟩

/-- Claim C10: with an unspecified (None) MIPGap option the constructor
still succeeds with a None gap; thereafter, a call whose (possibly
fallback) solve is optimal with ok status fails with a TypeError at the
order comparison current_milp_gap > 0, and a call on which the decrement
branch triggers fails with a TypeError at current_milp_gap -= 0.01 before
any solver is invoked — the bounder does not revert to classical
lower-bound solves. -/
theorem C10_none_gap (solver : PyomoSolver) (s : GurobiLBLowerBounder)
    (m : SubproblemModel) (gres ires : SolverResults) (t : ℤ)
    (hname : solver.name = "gurobi")
    (hgap : solver.options.MIPGap = none)
    (hs : s.current_milp_gap = none) :
    (∃ st, GurobiLBLowerBounder.init solver t = Except.ok st ∧
       st.current_milp_gap = none) ∧
    (¬ triggerCond (s.iter + 1) none →
       (effectiveResults gres ires).solver.termination_condition = TerminationCondition.optimal →
       (effectiveResults gres ires).solver.status = SolverStatus.ok →
       ∃ msg, (s.solve_a_subproblem m gres ires).result =
         Except.error (PyError.typeError msg)) ∧
    (triggerCond (s.iter + 1) none →
       (∃ msg, (s.solve_a_subproblem m gres ires).result =
         Except.error (PyError.typeError msg)) ∧
       (s.solve_a_subproblem m gres ires).events = []) := by
  refine ⟨?_, ?_, ?_⟩
  · exact ⟨{ opt := solver, time_ub := t, iter := 0,
             current_milp_gap := solver.options.MIPGap },
           by rw [GurobiLBLowerBounder.init, if_pos (Or.inl hname)], hgap⟩
  · intro hnt hopt hok
    have hupd : gapScheduleUpdate s = ({ s with iter := s.iter + 1 }, none) :=
      gapScheduleUpdate_no_trigger s (by rw [hs]; exact hnt)
    have hsched : (schedState s).current_milp_gap = none := by
      rw [schedState, hupd]
      exact hs
    have hres : (s.solve_a_subproblem m gres ires).result =
        (solveBody (schedState s) m gres ires).2 := by
      simp [GurobiLBLowerBounder.solve_a_subproblem, hupd, schedState]
    obtain ⟨msg, hcl⟩ :=
      classify_optimal_none (schedState s) m (effectiveResults gres ires) hsched hopt hok
    refine ⟨msg, ?_⟩
    rw [hres, solveBody_snd, hcl]
  · intro htr
    obtain ⟨hst, msg, h2⟩ := gapScheduleUpdate_trigger_none s hs htr
    exact ⟨⟨msg, by simp [GurobiLBLowerBounder.solve_a_subproblem, h2]⟩,
           by simp [GurobiLBLowerBounder.solve_a_subproblem, h2]⟩

/-- Claim C10, witness: the None-gap behaviour at the state whose next call
is the first decrement call (iteration 95). -/
theorem C10_none_gap_witness :
    (∃ st, GurobiLBLowerBounder.init gurobi_no_gap 600 = Except.ok st ∧
       st.current_milp_gap = none) ∧
    (¬ triggerCond (sNone94.iter + 1) none →
       (effectiveResults optimalOk optimalOk).solver.termination_condition = TerminationCondition.optimal →
       (effectiveResults optimalOk optimalOk).solver.status = SolverStatus.ok →
       ∃ msg, (sNone94.solve_a_subproblem cexModel optimalOk optimalOk).result =
         Except.error (PyError.typeError msg)) ∧
    (triggerCond (sNone94.iter + 1) none →
       (∃ msg, (sNone94.solve_a_subproblem cexModel optimalOk optimalOk).result =
         Except.error (PyError.typeError msg)) ∧
       (sNone94.solve_a_subproblem cexModel optimalOk optimalOk).events = []) :=
  C10_none_gap gurobi_no_gap sNone94 cexModel optimalOk optimalOk 600 rfl rfl rfl
